import Mathlib

/-!
Verification of the algorithm I/O contract layer of the DAAL sample
(tanh forward layer allocation, multi-class classifier quality-metric set,
regression training types) against its natural-language specification.

The C++ sources are shallowly embedded: slot collections become structures
of `Option`-valued fields (an absent slot is `none`, matching a null
`SharedPtr`), object identity of a heap allocation is an explicit `objId`
drawn from a fresh-counter threaded through allocation, and a dereference
of a null handle is modelled by an `Option`-valued function returning
`none` (undefined behavior, not a guarded error path).
-/

/-- Supported floating-point precision kinds for the `algorithmFPType`
template parameter (`DAAL_FPTYPE` instantiations). -/
inductive FPType
  | float32
  | float64
deriving DecidableEq

/-- A tensor handle: `objId` is the identity of the heap allocation,
`dims` the result of `getDimensions()`, `elemType` the element precision. -/
structure Tensor where
  objId : Nat
  dims : List Nat
  elemType : FPType
deriving DecidableEq

/-- Modelled from the spec: the tanh layer-data identifier (`tanh_layer_types.h`
is not under src/); its numeric value is not fixed by the sources at hand. -/
def auxValue : Nat := 0

/-- A `LayerData` collection held in the `resultForBackward` slot: `objId` is
the identity of the heap allocation, `entries` maps layer-data ids to the
object ids of the tensors stored under them. -/
structure LayerData where
  objId : Nat
  entries : List (Nat × Nat)
deriving DecidableEq

/-- The forward layer input (`layers::forward::Input`): its `data` slot.
`none` models a null handle returned by `get(layers::forward::data)`. -/
structure TanhForwardInput where
  data : Option Tensor
deriving DecidableEq

/-- The layer parameter (`layers::Parameter`): the `predictionStage` flag. -/
structure LayersParameter where
  predictionStage : Bool
deriving DecidableEq

/-- The tanh forward layer result (`tanh::forward::Result`): the
`layers::forward::value` and `layers::forward::resultForBackward` slots. -/
structure TanhForwardResult where
  value : Option Tensor
  resultForBackward : Option LayerData
deriving DecidableEq

/-- Modelled from the spec: `Result::setResultForBackward`
(declared in `tanh_layer_forward_types.h`, not under src/) records the
tensor needed by the backward pass inside the `LayerData` object already
held in the `resultForBackward` slot, mutating that object's contents in
place; the slot keeps the same heap object. -/
def tanhSetResultForBackward (r : TanhForwardResult) : TanhForwardResult :=
  match r.resultForBackward, r.value with
  | some ld, some v =>
      let newEntries := (auxValue, v.objId) :: ld.entries.filter (fun e => e.1 != auxValue)
      { r with resultForBackward := some { ld with entries := newEntries } }
  | _, _ => r

/-- The second half of `Result::allocate` (lines 57-65 of
`tanh_layer_forward_fpt.cpp`): when not in the prediction stage, create the
`resultForBackward` slot if it is absent and then call
`setResultForBackward`. Returns the updated result and fresh counter. -/
def tanhAllocateBackward (par : LayersParameter) (r : TanhForwardResult)
    (fresh : Nat) : TanhForwardResult × Nat :=
  if par.predictionStage then (r, fresh)
  else
    match r.resultForBackward with
    | none =>
        (tanhSetResultForBackward
          { r with resultForBackward := some { objId := fresh, entries := [] } },
         fresh + 1)
    | some _ => (tanhSetResultForBackward r, fresh)

/-- `Result::allocate` from `tanh_layer_forward_fpt.cpp` lines 49-66: if the
`value` slot is absent, read the input data tensor's dimensions — an
unguarded dereference, so a null `data` handle yields `none` (undefined
behavior, no error branch) — and allocate a fresh tensor of those
dimensions and precision `fp`; then handle the backward-support slot. -/
def tanhAllocate (fp : FPType) (input : TanhForwardInput)
    (par : LayersParameter) (r : TanhForwardResult) (fresh : Nat) :
    Option (TanhForwardResult × Nat) :=
  match r.value with
  | none =>
      match input.data with
      | none => none
      | some d =>
          some (tanhAllocateBackward par
            { r with value := some { objId := fresh, dims := d.dims, elemType := fp } }
            (fresh + 1))
  | some _ => some (tanhAllocateBackward par r fresh)

/-- A concrete input data tensor used for witnesses. -/
def tanhWData : Tensor := { objId := 100, dims := [10, 5], elemType := FPType.float32 }

/-- A concrete forward input with a populated data slot. -/
def tanhWInput : TanhForwardInput := { data := some tanhWData }

/-- A concrete layer parameter with the prediction stage off. -/
def tanhWPar : LayersParameter := { predictionStage := false }

/-- A fresh result with both slots absent. -/
def tanhWRes0 : TanhForwardResult := { value := none, resultForBackward := none }

/-- The result produced by the first `allocate` call on `tanhWRes0`. -/
def tanhWRes1 : TanhForwardResult :=
  { value := some { objId := 0, dims := [10, 5], elemType := FPType.float32 },
    resultForBackward := some { objId := 1, entries := [(0, 0)] } }

theorem tanhSetResultForBackward_value (r : TanhForwardResult) :
    (tanhSetResultForBackward r).value = r.value := by
  cases h1 : r.resultForBackward <;> cases h2 : r.value <;>
    simp [tanhSetResultForBackward, h1, h2]

theorem tanhSetResultForBackward_rfb_objId (r : TanhForwardResult) :
    ((tanhSetResultForBackward r).resultForBackward).map LayerData.objId =
      (r.resultForBackward).map LayerData.objId := by
  cases h1 : r.resultForBackward <;> cases h2 : r.value <;>
    simp [tanhSetResultForBackward, h1, h2]

theorem tanhAllocateBackward_value (par : LayersParameter) (r : TanhForwardResult)
    (fresh : Nat) : ((tanhAllocateBackward par r fresh).1).value = r.value := by
  by_cases hp : par.predictionStage
  · simp [tanhAllocateBackward, hp]
  · cases h : r.resultForBackward <;>
      simp [tanhAllocateBackward, hp, h, tanhSetResultForBackward_value]

theorem tanhAllocateBackward_rfb_objId (par : LayersParameter) (r : TanhForwardResult)
    (fresh : Nat) (ld : LayerData) (h : r.resultForBackward = some ld) :
    ((tanhAllocateBackward par r fresh).1).resultForBackward.map LayerData.objId =
      some ld.objId := by
  by_cases hp : par.predictionStage
  · simp [tanhAllocateBackward, hp, h]
  · simp [tanhAllocateBackward, hp, h, tanhSetResultForBackward_rfb_objId]

theorem tanhAllocate_value_some (fp : FPType) (input : TanhForwardInput)
    (par : LayersParameter) (r : TanhForwardResult) (fresh : Nat)
    (r1 : TanhForwardResult) (n1 : Nat)
    (h : tanhAllocate fp input par r fresh = some (r1, n1)) :
    ∃ v, r1.value = some v := by
  cases hv : r.value with
  | some v =>
    simp [tanhAllocate, hv, Prod.ext_iff] at h
    refine ⟨v, ?_⟩
    rw [← h.1, tanhAllocateBackward_value, hv]
  | none =>
    cases hd : input.data with
    | none => simp [tanhAllocate, hv, hd] at h
    | some d =>
      simp [tanhAllocate, hv, hd, Prod.ext_iff] at h
      exact ⟨_, by rw [← h.1, tanhAllocateBackward_value]⟩

/-- Claim C2: for every input, parameter, and method, calling the tanh
forward-layer `Result::allocate` twice with the same input and parameter,
where the first call already populated a result slot (the `value` slot or
the `resultForBackward` slot), leaves that slot's object identity unchanged
after the second call: allocation skips any slot that is already
non-absent. -/
theorem C2_allocate_idempotent (fp : FPType) (input : TanhForwardInput)
    (par : LayersParameter) (r : TanhForwardResult) (fresh : Nat)
    (r1 r2 : TanhForwardResult) (n1 n2 : Nat)
    (h1 : tanhAllocate fp input par r fresh = some (r1, n1))
    (h2 : tanhAllocate fp input par r1 n1 = some (r2, n2)) :
    (∀ t, r1.value = some t → r2.value = some t) ∧
    (∀ ld, r1.resultForBackward = some ld →
      (r2.resultForBackward).map LayerData.objId = some ld.objId) := by
  obtain ⟨v, hv⟩ := tanhAllocate_value_some fp input par r fresh r1 n1 h1
  simp [tanhAllocate, hv, Prod.ext_iff] at h2
  constructor
  · intro t ht
    rw [← h2.1, tanhAllocateBackward_value, ht]
  · intro ld hld
    rw [← h2.1]
    exact tanhAllocateBackward_rfb_objId par r1 n1 ld hld

/-- Claim C2 witness: a concrete double allocation where both slots were
populated by the first call and keep their identity through the second. -/
theorem C2_allocate_idempotent_witness :
    tanhAllocate FPType.float32 tanhWInput tanhWPar tanhWRes0 0 = some (tanhWRes1, 2) ∧
    tanhAllocate FPType.float32 tanhWInput tanhWPar tanhWRes1 2 = some (tanhWRes1, 2) ∧
    ((∀ t, tanhWRes1.value = some t → tanhWRes1.value = some t) ∧
     (∀ ld, tanhWRes1.resultForBackward = some ld →
       (tanhWRes1.resultForBackward).map LayerData.objId = some ld.objId)) :=
  ⟨by decide, by decide,
   C2_allocate_idempotent FPType.float32 tanhWInput tanhWPar tanhWRes0 0
     tanhWRes1 tanhWRes1 2 2 (by decide) (by decide)⟩

/-- Claim C3: for every input whose data slot holds a tensor of dimensions
`[N, D]` and every supported floating-point precision type, the tanh
forward-layer `Result::allocate` populates the `value` output slot with a
tensor of exactly the dimensions `[N, D]` taken from the input data
tensor's `getDimensions()`, never recomputed independently of that
input. -/
theorem C3_allocate_shape (fp : FPType) (input : TanhForwardInput)
    (par : LayersParameter) (r : TanhForwardResult) (fresh : Nat) (d : Tensor)
    (hd : input.data = some d) (hv : r.value = none) :
    ∃ r1 n1, tanhAllocate fp input par r fresh = some (r1, n1) ∧
      ∃ t, r1.value = some t ∧ t.dims = d.dims := by
  refine ⟨(tanhAllocateBackward par
      { r with value := some { objId := fresh, dims := d.dims, elemType := fp } }
      (fresh + 1)).1,
    (tanhAllocateBackward par
      { r with value := some { objId := fresh, dims := d.dims, elemType := fp } }
      (fresh + 1)).2, ?_, ?_⟩
  · simp [tanhAllocate, hv, hd]
  · rw [tanhAllocateBackward_value]
    exact ⟨_, rfl, rfl⟩

/-- Claim C3 witness: a concrete allocation at both precisions propagates
the input data tensor's dimensions `[10, 5]` into the `value` slot. -/
theorem C3_allocate_shape_witness :
    tanhWInput.data = some tanhWData ∧ tanhWRes0.value = none ∧
    (∃ r1 n1, tanhAllocate FPType.float64 tanhWInput tanhWPar tanhWRes0 7 = some (r1, n1) ∧
      ∃ t, r1.value = some t ∧ t.dims = tanhWData.dims) :=
  ⟨by decide, by decide,
   C3_allocate_shape FPType.float64 tanhWInput tanhWPar tanhWRes0 7 tanhWData
     (by decide) (by decide)⟩

/-- Claim C4: for every input and method, after the tanh forward-layer
`Result::allocate` runs on a result whose `resultForBackward` slot is
absent: if `parameter.predictionStage` is true, the slot remains absent; if
it is false, the slot is present and non-null. -/
theorem C4_prediction_gating (fp : FPType) (input : TanhForwardInput)
    (par : LayersParameter) (r : TanhForwardResult) (fresh : Nat)
    (r1 : TanhForwardResult) (n1 : Nat)
    (hb : r.resultForBackward = none)
    (h : tanhAllocate fp input par r fresh = some (r1, n1)) :
    (par.predictionStage = true → r1.resultForBackward = none) ∧
    (par.predictionStage = false → ∃ ld, r1.resultForBackward = some ld) := by
  have key : ∀ (r' : TanhForwardResult) (f' : Nat), r'.resultForBackward = none →
      (par.predictionStage = true →
        ((tanhAllocateBackward par r' f').1).resultForBackward = none) ∧
      (par.predictionStage = false →
        ∃ ld, ((tanhAllocateBackward par r' f').1).resultForBackward = some ld) := by
    intro r' f' hb'
    constructor
    · intro hp
      simp [tanhAllocateBackward, hp, hb']
    · intro hp
      cases hv' : r'.value <;>
        simp [tanhAllocateBackward, hp, hb', tanhSetResultForBackward, hv']
  cases hv : r.value with
  | some v =>
    simp [tanhAllocate, hv, Prod.ext_iff] at h
    rw [← h.1]
    exact key r fresh hb
  | none =>
    cases hd : input.data with
    | none => simp [tanhAllocate, hv, hd] at h
    | some d =>
      simp [tanhAllocate, hv, hd, Prod.ext_iff] at h
      rw [← h.1]
      exact key _ _ hb

/-- Claim C4 witness: with the prediction stage off, a concrete allocation
makes the `resultForBackward` slot present and non-null. -/
theorem C4_prediction_gating_witness :
    tanhWRes0.resultForBackward = none ∧
    tanhAllocate FPType.float32 tanhWInput tanhWPar tanhWRes0 0 = some (tanhWRes1, 2) ∧
    ((tanhWPar.predictionStage = true → tanhWRes1.resultForBackward = none) ∧
     (tanhWPar.predictionStage = false → ∃ ld, tanhWRes1.resultForBackward = some ld)) :=
  ⟨by decide, by decide,
   C4_prediction_gating FPType.float32 tanhWInput tanhWPar tanhWRes0 0 tanhWRes1 2
     (by decide) (by decide)⟩

/-- Claim C9: the tanh forward-layer `Result::allocate` performs no presence
validation of its input: on the allocation path (the `value` slot absent)
it dereferences the handle returned by the input's `get(data)` with no
guard, so the call succeeds exactly when the input's `data` slot is
non-absent, and an absent `data` slot yields undefined behavior rather
than a guarded error result. -/
theorem C9_unguarded_dereference (fp : FPType) (input : TanhForwardInput)
    (par : LayersParameter) (r : TanhForwardResult) (fresh : Nat)
    (hv : r.value = none) :
    (tanhAllocate fp input par r fresh).isSome = input.data.isSome := by
  cases hd : input.data <;> simp [tanhAllocate, hv, hd]

/-- Claim C9 witness: with an absent `data` slot the concrete call crashes
(no result at all), with a present `data` slot it succeeds. -/
theorem C9_unguarded_dereference_witness :
    tanhWRes0.value = none ∧
    (tanhAllocate FPType.float32 { data := none } tanhWPar tanhWRes0 0).isSome =
      (none : Option Tensor).isSome :=
  ⟨by decide,
   C9_unguarded_dereference FPType.float32 { data := none } tanhWPar tanhWRes0 0 (by decide)⟩

/-- Dynamic (run-time) types of objects stored in a quality-metric result
collection; `SerializationIface` is their common base. -/
inductive DynType
  | multiclassConfusionMatrixResult
  | binaryConfusionMatrixResult
  | otherType
deriving DecidableEq

/-- An object stored behind a `SharedPtr<SerializationIface>`: its dynamic
type tag and an abstract payload. -/
structure SerializationObj where
  dynType : DynType
  payload : Nat
deriving DecidableEq

/-- Modelled from the spec: the base
`algorithms::quality_metric_set::ResultCollection` (header not under src/)
is a heterogeneous result set keyed by a metric id; `operator[]` looks a
stored object up by its id. -/
structure QmsResultCollection where
  entries : List (Nat × SerializationObj)
deriving DecidableEq

/-- `operator[]` of the base collection: lookup of the stored object by id;
`none` models a null handle. -/
def qmsLookup (c : QmsResultCollection) (id : Nat) : Option SerializationObj :=
  (c.entries.find? (fun e => e.1 == id)).map Prod.snd

/-- Modelled from C++ semantics: `services::staticPointerCast` (header not
under src/) is `static_pointer_cast`: the stored pointer is returned
unchanged, reinterpreted at the target type with no run-time type check.
The value-level model returns the object itself; a mismatched `dynType`
means the caller holds a misinterpreted object. -/
def staticPointerCast (_target : DynType) (obj : Option SerializationObj) :
    Option SerializationObj :=
  obj

/-- A checked down-cast as the spec describes: returns the stored object
only when its dynamic type matches the target, and null otherwise. -/
def dynamicPointerCast (target : DynType) (obj : Option SerializationObj) :
    Option SerializationObj :=
  match obj with
  | some o => if o.dynType = target then some o else none
  | none => none

/-- `ResultCollection::getResult` from
`multi_class_classifier_quality_metric_set_types.h` lines 85-89: a
`staticPointerCast` of `(*this)[(size_t)id]` to the multi-class
confusion-matrix `Result` type. -/
def getResult (c : QmsResultCollection) (id : Nat) : Option SerializationObj :=
  staticPointerCast DynType.multiclassConfusionMatrixResult (qmsLookup c id)

/-- A collection whose entry 0 stores an object that is not a multi-class
confusion-matrix `Result`. -/
def qmsBadCollection : QmsResultCollection :=
  { entries := [(0, { dynType := DynType.otherType, payload := 7 })] }

/-- A collection whose entry 0 stores a multi-class confusion-matrix
`Result`. -/
def qmsGoodCollection : QmsResultCollection :=
  { entries := [(0, { dynType := DynType.multiclassConfusionMatrixResult, payload := 3 })] }

/-- Claim C1 counterexample: the claim says that when the stored object's
dynamic type does not match, `getResult` returns null; but on a concrete
collection whose entry 0 has dynamic type `otherType`, `getResult` returns
that object non-null and misinterpreted — the cast is `staticPointerCast`,
an unchecked reinterpretation. -/
theorem C1_checked_cast_counterexample :
    (qmsLookup qmsBadCollection 0).map SerializationObj.dynType =
      some DynType.otherType ∧
    getResult qmsBadCollection 0 ≠ none ∧
    getResult qmsBadCollection 0 ≠
      dynamicPointerCast DynType.multiclassConfusionMatrixResult
        (qmsLookup qmsBadCollection 0) := by
  refine ⟨by decide, by decide, by decide⟩

/-- Claim C1 as amended: `getResult(id)` performs an unchecked static
down-cast: it returns the stored object unchanged regardless of its
dynamic type, so a matching entry is returned correctly (agreeing with a
checked cast), while a mismatched entry is returned reinterpreted rather
than null. -/
theorem C1_static_cast_amended (c : QmsResultCollection) (id : Nat) :
    getResult c id = qmsLookup c id ∧
    (∀ o, qmsLookup c id = some o →
      o.dynType = DynType.multiclassConfusionMatrixResult →
      getResult c id =
        dynamicPointerCast DynType.multiclassConfusionMatrixResult (qmsLookup c id)) := by
  refine ⟨rfl, ?_⟩
  intro o ho hty
  rw [ho]
  simp [getResult, staticPointerCast, dynamicPointerCast, ho, hty]

/-- Claim C1 amended witness: on a collection whose entry 0 stores a
confusion-matrix `Result`, the cast succeeds and agrees with a checked
cast. -/
theorem C1_static_cast_amended_witness :
    getResult qmsGoodCollection 0 = qmsLookup qmsGoodCollection 0 ∧
    (∀ o, qmsLookup qmsGoodCollection 0 = some o →
      o.dynType = DynType.multiclassConfusionMatrixResult →
      getResult qmsGoodCollection 0 =
        dynamicPointerCast DynType.multiclassConfusionMatrixResult
          (qmsLookup qmsGoodCollection 0)) :=
  C1_static_cast_amended qmsGoodCollection 0

/-- The quality-metric-set `Parameter` from
`multi_class_classifier_quality_metric_set_types.h` lines 60-66: a plain
struct holding `nClasses`. -/
structure QmsParameter where
  nClasses : Nat
deriving DecidableEq

/-- The one-argument constructor `Parameter(size_t nClasses)`. -/
def mkQmsParameter (n : Nat) : QmsParameter :=
  { nClasses := n }

/-- The no-argument constructor call: the C++ default argument
`nClasses = 2` applies. -/
def mkQmsParameterDefault : QmsParameter :=
  mkQmsParameter 2

/-- Claim C10: constructing a multi-class-classifier quality-metric-set
`Parameter` with no argument yields `nClasses = 2`, which lies within the
valid domain `nClasses >= 2`; for every argument `n`, constructing
`Parameter(n)` yields `nClasses = n`. -/
theorem C10_parameter_default :
    mkQmsParameterDefault.nClasses = 2 ∧
    2 ≤ mkQmsParameterDefault.nClasses ∧
    ∀ n : Nat, (mkQmsParameter n).nClasses = n :=
  ⟨rfl, Nat.le_refl 2, fun _ => rfl⟩

/-- Enumerator names occurring in the identifier enums of the three
headers; `nLastInputId` and `nLastResultId` are the names of the shape
`lastXxxId`. -/
inductive EnumName
  | nData
  | nDependentVariables
  | nLastInputId
  | nModel
  | nLastResultId
  | nConfusionMatrix
deriving DecidableEq

/-- Whether an enumerator name is of the sentinel shape `lastXxxId`
(`lastInputId` and `lastResultId` are; `data`, `dependentVariables`,
`model` and `confusionMatrix` are not). -/
def isSentinelName : EnumName → Bool
  | EnumName.nLastInputId => true
  | EnumName.nLastResultId => true
  | _ => false

/-- The `regression::training::InputId` enum from
`regression_training_types.h` lines 52-57, as its declared list of
enumerator names and values: `data = 0`, `dependentVariables = 1`,
`lastInputId = dependentVariables`. -/
def regrInputIdDecl : List (EnumName × Nat) :=
  [(EnumName.nData, 0), (EnumName.nDependentVariables, 1), (EnumName.nLastInputId, 1)]

/-- The `regression::training::ResultId` enum from
`regression_training_types.h` lines 63-67: `model = 0`,
`lastResultId = model`. -/
def regrResultIdDecl : List (EnumName × Nat) :=
  [(EnumName.nModel, 0), (EnumName.nLastResultId, 0)]

/-- The `multi_class_classifier::quality_metric_set::QualityMetricId` enum
from `multi_class_classifier_quality_metric_set_types.h` lines 43-46: its
only enumerator is `confusionMatrix = 0`; it declares no sentinel. -/
def qmsQualityMetricIdDecl : List (EnumName × Nat) :=
  [(EnumName.nConfusionMatrix, 0)]

/-- The values of the proper (non-sentinel) enumerators. -/
def enumMemberValues (d : List (EnumName × Nat)) : List Nat :=
  (d.filter (fun p => !(isSentinelName p.1))).map Prod.snd

/-- The maximum declared enumerator value. -/
def enumMaxValue (d : List (EnumName × Nat)) : Nat :=
  (d.map Prod.snd).foldr Nat.max 0

/-- Densely packed: the proper enumerator values are exactly 0, 1, ... in
declaration order. -/
def enumDenselyPacked (d : List (EnumName × Nat)) : Bool :=
  enumMemberValues d == List.range (enumMemberValues d).length

/-- The enum carries an explicit `lastXxxId` sentinel whose value equals
the maximum valid enumerator value. -/
def enumCarriesSentinel (d : List (EnumName × Nat)) : Bool :=
  d.any (fun p => isSentinelName p.1 && p.2 == enumMaxValue d)

/-- Claim C5 counterexample: the claim asserts that every identifier enum —
including the multi-class classifier `QualityMetricId` — carries an
explicit `lastXxxId` sentinel, but the `QualityMetricId` enum declares no
sentinel at all. -/
theorem C5_sentinel_counterexample :
    enumCarriesSentinel qmsQualityMetricIdDecl = false := by
  decide

/-- Claim C5 as amended: the regression training `InputId` and `ResultId`
enums are densely packed and carry an explicit `lastXxxId` sentinel equal
to the maximum valid identifier value; the multi-class classifier
`QualityMetricId` enum is densely packed but carries no sentinel. -/
theorem C5_enum_sentinels_amended :
    (enumDenselyPacked regrInputIdDecl = true ∧
     enumCarriesSentinel regrInputIdDecl = true) ∧
    (enumDenselyPacked regrResultIdDecl = true ∧
     enumCarriesSentinel regrResultIdDecl = true) ∧
    (enumDenselyPacked qmsQualityMetricIdDecl = true ∧
     enumCarriesSentinel qmsQualityMetricIdDecl = false) := by
  decide

/-- A numeric table handle exposed to regression training: row and column
counts (`getNumberOfRows` / `getNumberOfColumns`). -/
structure NumericTable where
  rows : Nat
  cols : Nat
deriving DecidableEq

/-- The kinds of validation findings named by the spec's error taxonomy. -/
inductive ErrorKind
  | structuralError
  | shapeMismatchError
  | parameterDomainError
  | typeMismatchError
  | serializationError
deriving DecidableEq

/-- One validation finding with its fatality flag. -/
structure Finding where
  kind : ErrorKind
  fatal : Bool
deriving DecidableEq

/-- A composite status: the aggregated list of findings. -/
structure Status where
  findings : List Finding
deriving DecidableEq

/-- Whether the status carries any fatal finding. -/
def Status.hasFatal (s : Status) : Bool :=
  s.findings.any (fun f => f.fatal)

/-- Whether the status carries a fatal finding of the given kind. -/
def Status.hasFatalKind (s : Status) (k : ErrorKind) : Bool :=
  s.findings.any (fun f => f.fatal && f.kind == k)

/-- The `regression::training::Input`: its `data` and `dependentVariables`
slots (keyed by `InputId`); `none` models an absent slot. -/
structure RegrTrainingInput where
  data : Option NumericTable
  dependentVariables : Option NumericTable
deriving DecidableEq

/-- A generic algorithm parameter passed to the regression training checks;
the base `daal::algorithms::Parameter` carries no fields this check reads. -/
structure AlgParameter where
  dummy : Unit
deriving DecidableEq

/-- Modelled from the spec: `regression::training::Input::check` (only
declared in `regression_training_types.h` line 111; the implementation is
not under src/) verifies presence of the required `data` and
`dependentVariables` slots and that their row counts agree, aggregating all
detected findings into one composite status; a row-count disagreement is a
fatal ShapeMismatchError. -/
def regrInputCheck (input : RegrTrainingInput) (_par : AlgParameter)
    (_method : Int) : Status :=
  let presenceData : List Finding :=
    match input.data with
    | none => [{ kind := ErrorKind.structuralError, fatal := true }]
    | some _ => []
  let presenceDep : List Finding :=
    match input.dependentVariables with
    | none => [{ kind := ErrorKind.structuralError, fatal := true }]
    | some _ => []
  let shape : List Finding :=
    match input.data, input.dependentVariables with
    | some d, some y =>
        if d.rows == y.rows then []
        else [{ kind := ErrorKind.shapeMismatchError, fatal := true }]
    | _, _ => []
  { findings := presenceData ++ presenceDep ++ shape }

/-- Claim C7: for every regression training Input whose `data` slot has 10
rows and whose `dependentVariables` slot has 8 rows, `Input::check` returns
a status containing a fatal ShapeMismatchError; for the same Input with 10
rows in each slot, `check` returns a status with no fatal error. -/
theorem C7_input_check_rows :
    (∀ (d y : NumericTable) (par : AlgParameter) (m : Int),
      d.rows = 10 → y.rows = 8 →
      (regrInputCheck { data := some d, dependentVariables := some y } par m).hasFatalKind
        ErrorKind.shapeMismatchError = true) ∧
    (∀ (d y : NumericTable) (par : AlgParameter) (m : Int),
      d.rows = 10 → y.rows = 10 →
      (regrInputCheck { data := some d, dependentVariables := some y } par m).hasFatal =
        false) := by
  constructor
  · intro d y par m hd hy
    simp [regrInputCheck, Status.hasFatalKind, hd, hy]
  · intro d y par m hd hy
    simp [regrInputCheck, Status.hasFatal, hd, hy]

/-- Claim C7 witness: concrete 10-row/8-row tables produce the fatal shape
mismatch and concrete 10-row/10-row tables produce no fatal finding. -/
theorem C7_input_check_rows_witness :
    ((regrInputCheck
        { data := some { rows := 10, cols := 3 },
          dependentVariables := some { rows := 8, cols := 1 } }
        { dummy := () } 0).hasFatalKind ErrorKind.shapeMismatchError = true) ∧
    ((regrInputCheck
        { data := some { rows := 10, cols := 3 },
          dependentVariables := some { rows := 10, cols := 1 } }
        { dummy := () } 0).hasFatal = false) :=
  ⟨C7_input_check_rows.1 { rows := 10, cols := 3 } { rows := 8, cols := 1 }
     { dummy := () } 0 rfl rfl,
   C7_input_check_rows.2 { rows := 10, cols := 3 } { rows := 10, cols := 1 }
     { dummy := () } 0 rfl rfl⟩

/-- A regression model value held in the `model` result slot; `pay` is its
serialized payload (the model collaborator is external and need only be
serializable). -/
structure RegrModel where
  pay : Nat
deriving DecidableEq

/-- The `regression::training::Result`: its slot collection keyed by
`ResultId` (slot 0 is `model`). -/
structure RegrTrainingResult where
  slots : List (Option RegrModel)
deriving DecidableEq

/-- The `regression::training::PartialResult`: its own slot collection,
a structurally distinct type from `RegrTrainingResult`. -/
structure RegrTrainingPartialResult where
  slots : List (Option RegrModel)
deriving DecidableEq

/-- Modelled from the spec: the base-class serialization of a slot
collection (the base `daal::algorithms::Result` / `PartialResult`
implementation is not under src/) writes each slot in order: an absence
flag 0, or a presence flag 1 followed by the slot object's payload. -/
def algSlotsSerialize : List (Option RegrModel) → List Nat
  | [] => []
  | none :: rest => 0 :: algSlotsSerialize rest
  | some m :: rest => 1 :: m.pay :: algSlotsSerialize rest

/-- Modelled from the spec: the base-class write routine — the collection
size followed by the serialized slots. -/
def algBaseSerialize (ss : List (Option RegrModel)) : List Nat :=
  ss.length :: algSlotsSerialize ss

/-- Modelled from the spec: the symmetric read of `n` slots from the
archive, returning the slots and the unread remainder, or `none` on a
corrupt stream. -/
def algSlotsDeserialize : Nat → List Nat → Option (List (Option RegrModel) × List Nat)
  | 0, rest => some ([], rest)
  | n + 1, 0 :: rest =>
      match algSlotsDeserialize n rest with
      | some (ss, r2) => some (none :: ss, r2)
      | none => none
  | n + 1, 1 :: p :: rest =>
      match algSlotsDeserialize n rest with
      | some (ss, r2) => some (some { pay := p } :: ss, r2)
      | none => none
  | _, _ => none

/-- Modelled from the spec: the base-class read routine — reads the size,
then that many slots, requiring the archive to be fully consumed. -/
def algBaseDeserialize (toks : List Nat) : Option (List (Option RegrModel)) :=
  match toks with
  | n :: rest =>
      match algSlotsDeserialize n rest with
      | some (ss, []) => some ss
      | _ => none
  | [] => none

/-- `Result::serialImpl` from `regression_training_types.h` lines 183-187:
it calls only the base class's own serialization routine; regression
training adds no algorithm-specific fields. -/
def regrResultSerialize (r : RegrTrainingResult) : List Nat :=
  algBaseSerialize r.slots

/-- The read direction of `Result::serialImpl` (lines 183-187 with
`onDeserialize = true`): again only the base class routine. -/
def regrResultDeserialize (toks : List Nat) : Option RegrTrainingResult :=
  (algBaseDeserialize toks).map (fun ss => { slots := ss })

/-- `PartialResult::serialImpl` from `regression_training_types.h` lines
130-134: it calls only the base class's own serialization routine. -/
def regrPartialResultSerialize (p : RegrTrainingPartialResult) : List Nat :=
  algBaseSerialize p.slots

/-- The read direction of `PartialResult::serialImpl` (lines 130-134 with
`onDeserialize = true`). -/
def regrPartialResultDeserialize (toks : List Nat) : Option RegrTrainingPartialResult :=
  (algBaseDeserialize toks).map (fun ss => { slots := ss })

theorem algSlotsDeserialize_serialize (ss : List (Option RegrModel)) (rest : List Nat) :
    algSlotsDeserialize ss.length (algSlotsSerialize ss ++ rest) = some (ss, rest) := by
  induction ss with
  | nil => rfl
  | cons hd tl ih =>
    cases hd with
    | none => simp [algSlotsSerialize, algSlotsDeserialize, ih]
    | some m => simp [algSlotsSerialize, algSlotsDeserialize, ih]

theorem algBaseDeserialize_serialize (ss : List (Option RegrModel)) :
    algBaseDeserialize (algBaseSerialize ss) = some ss := by
  have h := algSlotsDeserialize_serialize ss []
  simp only [List.append_nil] at h
  simp [algBaseSerialize, algBaseDeserialize, h]

/-- Claim C6: for every regression training Result or PartialResult `r`,
`deserialize(serialize(r))` yields an object equal to `r` under value
equality of all populated slots; serialization writes the base-class state
via the base class's own serialization routine first, followed by
algorithm-specific fields if any (for regression training there are none
beyond the slot collection serialized by the base). -/
theorem C6_serialization_roundtrip (r : RegrTrainingResult)
    (p : RegrTrainingPartialResult) :
    regrResultDeserialize (regrResultSerialize r) = some r ∧
    regrPartialResultDeserialize (regrPartialResultSerialize p) = some p ∧
    regrResultSerialize r = algBaseSerialize r.slots ∧
    regrPartialResultSerialize p = algBaseSerialize p.slots := by
  refine ⟨?_, ?_, rfl, rfl⟩
  · simp [regrResultDeserialize, regrResultSerialize, algBaseDeserialize_serialize]
  · simp [regrPartialResultDeserialize, regrPartialResultSerialize,
      algBaseDeserialize_serialize]

/-- Modelled from the spec: `regression::training::Result::check` (only
declared in `regression_training_types.h` line 179; the implementation is
not under src/) confirms the result's structural integrity — the `model`
slot must be present — and must not mutate any entity; it is written in
state-passing style so the absence of mutation is expressible: it returns
the status together with the (unchanged) result, input, and parameter. -/
def regrResultCheck (r : RegrTrainingResult) (input : RegrTrainingInput)
    (par : AlgParameter) (_method : Int) :
    Status × RegrTrainingResult × RegrTrainingInput × AlgParameter :=
  let findings : List Finding :=
    match r.slots.getD 0 none with
    | none => [{ kind := ErrorKind.structuralError, fatal := true }]
    | some _ => []
  ({ findings := findings }, r, input, par)

/-- Claim C8: for every regression training Result, input, parameter, and
method, invoking `Result::check(input, parameter, method)` mutates no
entity: the Result's slot collection, the input, and the parameter are all
unchanged after the call. -/
theorem C8_result_check_frame (r : RegrTrainingResult)
    (input : RegrTrainingInput) (par : AlgParameter) (m : Int) :
    (regrResultCheck r input par m).2 = (r, input, par) :=
  rfl
